import Mathlib

/-!
Verification development for a small Go wiki web application.

The application persists named pages as flat files (`<title>.txt`) and
serves three HTTP actions (`view`, `edit`, `save`).  The repository holds
two web versions of the program:

* the final version (file `part_000` of the sources): handlers take a
  validated title; a wrapper `makeHandler` matches the request path
  against the anchored pattern `^/(edit|save|view)/([a-zA-Z0-9]+)$` and
  rejects non-matching paths with HTTP 404 before the inner handler runs;
* an earlier version (`wiki.go`): no validation at all, each handler
  slices the title out of the path with a fixed-length prefix strip
  (`r.URL.Path[len("/view/"):]`, length 6, in all three handlers).

The embedding below models the filesystem as an association list from
file names to byte contents (bytes as `Nat`), plus a table of injected
write failures so that `ioutil.WriteFile` errors can be expressed.
`fmt.Println` output is modelled as an explicit trace: every operation
returns the list of lines it printed.  HTML template execution is an
external collaborator and is modelled as an opaque `render` response
action carrying the template name and the (possibly nil) page pointer.
The HTTP response writer is modelled as the list of actions written to
it, in order.
-/

/-- A stored page: title and body, the body being a raw byte sequence
(Go `[]byte`, modelled as `List Nat`). -/
structure Page where
  title : String
  body : List Nat
  deriving Repr, DecidableEq

/-- Filesystem state: current files (name to content) and a table of
injected write failures (name to the error message `ioutil.WriteFile`
would return for that name, e.g. a permission error). -/
structure FS where
  files : List (String × List Nat)
  failing : List (String × String)
  deriving Repr, DecidableEq

/-- First-match lookup in an association list keyed by strings. -/
def assocLookup {α : Type} : List (String × α) → String → Option α
  | [], _ => none
  | (k, v) :: rest, key => if k = key then some v else assocLookup rest key

/-- Model of `ioutil.ReadFile`: returns the content of an existing file,
or an error (Go's "no such file or directory") when the file is absent. -/
def readFile (fs : FS) (name : String) : Except String (List Nat) :=
  match assocLookup fs.files name with
  | some content => .ok content
  | none => .error ("open " ++ name ++ ": no such file or directory")

/-- Model of `ioutil.WriteFile`: fails with the injected message when the
name is in the failure table, otherwise replaces the file's content. -/
def writeFile (fs : FS) (name : String) (content : List Nat) : Except String FS :=
  match assocLookup fs.failing name with
  | some msg => .error msg
  | none => .ok { fs with files := (name, content) :: fs.files }

/-- Go's `func (p *Page) save() error` (identical in all versions):
builds `filename := p.Title + ".txt"`, prints `"saving" + filename`, then
writes the body via `ioutil.WriteFile`.  Returns the error (`none` on
success, Go `nil`), the resulting filesystem, and the printed trace. -/
def Page.save (p : Page) (fs : FS) : Option String × FS × List String :=
  let filename := p.title ++ ".txt"
  match writeFile fs filename p.body with
  | .error msg => (some msg, fs, ["saving" ++ filename])
  | .ok fs2 => (none, fs2, ["saving" ++ filename])

/-- Go's `func loadPage(title string) (*Page, error)` (identical in all
versions): builds `filename := title + ".txt"`, reads it, and returns
either `(&Page{Title: title, Body: body}, nil)` or `(nil, err)`.  The
pair of the page pointer (`Option Page`, `none` being Go `nil`) and the
error is returned together with the printed trace (`loadPage` prints
nothing). -/
def loadPage (title : String) (fs : FS) :
    (Option Page × Option String) × List String :=
  let filename := title ++ ".txt"
  (match readFile fs filename with
   | .error err => (none, some err)
   | .ok body => (some ⟨title, body⟩, none), [])

/-- One action written to the HTTP response writer. -/
inductive RespAction where
  /-- `http.NotFound`: a 404 response. -/
  | notFound
  /-- `http.Redirect(w, r, loc, http.StatusFound)`: a 302 redirect. -/
  | redirect (loc : String)
  /-- `http.Error(w, msg, http.StatusInternalServerError)`: a 500. -/
  | error500 (msg : String)
  /-- `renderTemplate(w, tmpl, p)`: execute template `tmpl + ".html"`
  with page pointer `p` (`none` is a Go nil pointer). Template execution
  itself is an external collaborator and stays opaque. -/
  | render (tmpl : String) (page : Option Page)
  deriving Repr, DecidableEq

/-- An inbound HTTP request, as far as the handlers inspect it: the URL
path and the submitted form field `body` (as bytes). -/
structure Request where
  path : String
  formBody : List Nat
  deriving Repr, DecidableEq

/-- Result of running a handler: the response actions written, in order,
the filesystem afterwards, and the trace printed to stdout. -/
abbrev HandlerResult := List RespAction × FS × List String

/-- Character class `[a-zA-Z0-9]` of the validation regexp. -/
def isAlnum (c : Char) : Bool :=
  ('a' ≤ c && c ≤ 'z') || ('A' ≤ c && c ≤ 'Z') || ('0' ≤ c && c ≤ '9')

/-- Splits off the leading `/(edit|save|view)/` of the anchored pattern
`^/(edit|save|view)/([a-zA-Z0-9]+)$`, returning the action name and the
remainder of the path. -/
def splitAction : List Char → Option (String × List Char)
  | '/' :: 'e' :: 'd' :: 'i' :: 't' :: '/' :: rest => some ("edit", rest)
  | '/' :: 's' :: 'a' :: 'v' :: 'e' :: '/' :: rest => some ("save", rest)
  | '/' :: 'v' :: 'i' :: 'e' :: 'w' :: '/' :: rest => some ("view", rest)
  | _ => none

/-- Model of `validPath.FindStringSubmatch(path)` for the anchored
regexp `^/(edit|save|view)/([a-zA-Z0-9]+)$`: `some (action, title)` when
the whole path has the shape `/<action>/<id>` with a non-empty
alphanumeric `<id>`, `none` otherwise. -/
def matchValidPath (path : String) : Option (String × String) :=
  match splitAction path.toList with
  | some (a, rest) =>
      if !rest.isEmpty && rest.all isAlnum then some (a, String.mk rest)
      else none
  | none => none

/-- A title drawn from the allowed identifier alphabet: non-empty and
all alphanumeric, i.e. matching `^[A-Za-z0-9]+$`. -/
def isValidTitle (t : String) : Bool :=
  !t.toList.isEmpty && t.toList.all isAlnum

/-- Final version's `viewHandler(w, r, title)`: prints `"view: " + path`,
loads the page; on a load error it issues a 302 redirect to
`/edit/<title>` but does not return, so `renderTemplate(w, "view", p)`
runs in both cases (with the nil pointer `p` after a failed load). -/
def viewHandler (r : Request) (title : String) (fs : FS) : HandlerResult :=
  let tr0 := ["view: " ++ r.path]
  match loadPage title fs with
  | ((p, some _), tr1) =>
      ([.redirect ("/edit/" ++ title), .render "view" p], fs, tr0 ++ tr1)
  | ((p, none), tr1) => ([.render "view" p], fs, tr0 ++ tr1)

/-- Final version's `editHandler(w, r, title)`: loads the page; when the
load fails it substitutes the fresh in-memory `&Page{Title: title}`
(zero-value body), then renders the "edit" template. -/
def editHandler (r : Request) (title : String) (fs : FS) : HandlerResult :=
  match loadPage title fs with
  | ((_, some _), tr1) => ([.render "edit" (some ⟨title, []⟩)], fs, tr1)
  | ((p, none), tr1) => ([.render "edit" p], fs, tr1)

/-- Final version's `saveHandler(w, r, title)`: prints `"save: " + path`,
builds `&Page{Title: title, Body: []byte(r.FormValue("body"))}` and saves
it; on a save error it writes HTTP 500 with the error message and
returns, otherwise it issues a 302 redirect to `/view/<title>`. -/
def saveHandler (r : Request) (title : String) (fs : FS) : HandlerResult :=
  let tr0 := ["save: " ++ r.path]
  let p : Page := ⟨title, r.formBody⟩
  match p.save fs with
  | (some msg, fs2, tr1) => ([.error500 msg], fs2, tr0 ++ tr1)
  | (none, fs2, tr1) => ([.redirect ("/view/" ++ title)], fs2, tr0 ++ tr1)

/-- Final version's `makeHandler(fn)`: the returned closure matches the
request path against `validPath`; on no match it writes `http.NotFound`
and returns, otherwise it calls `fn(w, r, m[2])` with the captured
title. -/
def makeHandler (fn : Request → String → FS → HandlerResult)
    (r : Request) (fs : FS) : HandlerResult :=
  match matchValidPath r.path with
  | none => ([.notFound], fs, [])
  | some (_, title) => fn r title fs

/-- Earlier version's `viewHandler(w, r)` (`wiki.go`): prints the path,
takes `title := r.URL.Path[len("/view/"):]` (a raw 6-character prefix
strip, no validation), then proceeds exactly like the final view
handler. -/
def oldViewHandler (r : Request) (fs : FS) : HandlerResult :=
  let tr0 := ["view: " ++ r.path]
  let title := String.mk (r.path.toList.drop 6)
  match loadPage title fs with
  | ((p, some _), tr1) =>
      ([.redirect ("/edit/" ++ title), .render "view" p], fs, tr0 ++ tr1)
  | ((p, none), tr1) => ([.render "view" p], fs, tr0 ++ tr1)

/-- Earlier version's `editHandler(w, r)` (`wiki.go`): prints the path,
takes `title := r.URL.Path[len("/view/"):]` (the source strips the
length of `"/view/"`, not `"/edit/"`; both are 6), loads the page or
synthesizes an empty one, and renders the edit form. -/
def oldEditHandler (r : Request) (fs : FS) : HandlerResult :=
  let tr0 := ["edit: " ++ r.path]
  let title := String.mk (r.path.toList.drop 6)
  match loadPage title fs with
  | ((_, some _), tr1) => ([.render "edit" (some ⟨title, []⟩)], fs, tr0 ++ tr1)
  | ((p, none), tr1) => ([.render "edit" p], fs, tr0 ++ tr1)

/-- Earlier version's `saveHandler(w, r)` (`wiki.go`): prints the path,
takes `title := r.URL.Path[len("/save/"):]` (raw 6-character strip, no
validation), saves the submitted body under it, then responds 500 or
redirects to `/view/<title>`. -/
def oldSaveHandler (r : Request) (fs : FS) : HandlerResult :=
  let tr0 := ["save: " ++ r.path]
  let title := String.mk (r.path.toList.drop 6)
  let p : Page := ⟨title, r.formBody⟩
  match p.save fs with
  | (some msg, fs2, tr1) => ([.error500 msg], fs2, tr0 ++ tr1)
  | (none, fs2, tr1) => ([.redirect ("/view/" ++ title)], fs2, tr0 ++ tr1)

/-! Helper lemmas. -/

/-- Looking up the key just written finds the fresh content. -/
theorem assocLookup_cons_self {α : Type} (k : String) (v : α)
    (l : List (String × α)) : assocLookup ((k, v) :: l) k = some v := by
  simp [assocLookup]

/-- Stripping six characters from `"/view/" ++ t` yields `t` back. -/
theorem drop6_view_append (t : String) :
    String.mk (("/view/" ++ t).toList.drop 6) = t := rfl

/-- Stripping six characters from `"/edit/" ++ t` yields `t` back. -/
theorem drop6_edit_append (t : String) :
    String.mk (("/edit/" ++ t).toList.drop 6) = t := rfl

/-- Stripping six characters from `"/save/" ++ t` yields `t` back. -/
theorem drop6_save_append (t : String) :
    String.mk (("/save/" ++ t).toList.drop 6) = t := rfl

/-! Claim theorems. -/

/-- C1: for every title from the allowed alphabet and every body, a
successful `save` followed by `loadPage` of the same title yields a page
with exactly that body (round-trip law). -/
theorem save_then_load_roundtrip (p : Page) (fs : FS)
    (hvalid : isValidTitle p.title = true)
    (hok : (p.save fs).1 = none) :
    (loadPage p.title (p.save fs).2.1).1 = (some ⟨p.title, p.body⟩, none) := by
  simp only [Page.save, writeFile] at hok ⊢
  cases h : assocLookup fs.failing (p.title ++ ".txt") with
  | some msg => simp [h] at hok
  | none => simp [h, loadPage, readFile, assocLookup_cons_self]

/-- C1 witness: saving body `[104, 105]` under title `TestPage` into the
empty filesystem succeeds, and loading `TestPage` returns that body. -/
theorem save_then_load_roundtrip_witness :
    isValidTitle "TestPage" = true ∧
    ((⟨"TestPage", [104, 105]⟩ : Page).save ⟨[], []⟩).1 = none ∧
    (loadPage "TestPage"
        ((⟨"TestPage", [104, 105]⟩ : Page).save ⟨[], []⟩).2.1).1 =
      (some ⟨"TestPage", [104, 105]⟩, none) :=
  ⟨by decide, by decide,
    save_then_load_roundtrip ⟨"TestPage", [104, 105]⟩ ⟨[], []⟩
      (by decide) (by decide)⟩

/-- C2: whenever the request path fails the anchored pattern (wrong
shape or invalid identifier), the wrapped handler answers 404, leaves
the filesystem untouched, prints nothing, and never runs the inner
handler — the result is the same for every inner handler `fn`. -/
theorem makeHandler_rejects_invalid (fn : Request → String → FS → HandlerResult)
    (r : Request) (fs : FS) (hbad : matchValidPath r.path = none) :
    makeHandler fn r fs = ([.notFound], fs, []) := by
  simp [makeHandler, hbad]

/-- C2 witness: the traversal path `/view/../etc/passwd` fails the
pattern and the wrapped view handler answers 404 with no side effect. -/
theorem makeHandler_rejects_invalid_witness :
    matchValidPath "/view/../etc/passwd" = none ∧
    makeHandler viewHandler ⟨"/view/../etc/passwd", []⟩ ⟨[], []⟩ =
      ([.notFound], ⟨[], []⟩, []) :=
  ⟨by decide,
    makeHandler_rejects_invalid viewHandler ⟨"/view/../etc/passwd", []⟩ ⟨[], []⟩
      (by decide)⟩

/-- C3: viewing a validated title whose backing file is absent writes a
302 redirect to `/edit/<title>` as the first response action and
creates no file (the filesystem is returned unchanged). -/
theorem view_missing_redirects_no_write (r : Request) (t : String) (fs : FS)
    (hvalid : isValidTitle t = true)
    (hmiss : assocLookup fs.files (t ++ ".txt") = none) :
    (viewHandler r t fs).1.head? = some (.redirect ("/edit/" ++ t)) ∧
    (viewHandler r t fs).2.1 = fs := by
  simp [viewHandler, loadPage, readFile, hmiss]

/-- C3 witness: viewing missing page `Beta` on the empty filesystem
redirects to `/edit/Beta` and leaves the filesystem empty. -/
theorem view_missing_redirects_no_write_witness :
    (viewHandler ⟨"/view/Beta", []⟩ "Beta" ⟨[], []⟩).1.head? =
      some (.redirect "/edit/Beta") ∧
    (viewHandler ⟨"/view/Beta", []⟩ "Beta" ⟨[], []⟩).2.1 = ⟨[], []⟩ :=
  view_missing_redirects_no_write ⟨"/view/Beta", []⟩ "Beta" ⟨[], []⟩
    (by decide) (by decide)

/-- C4: editing a validated title whose backing file is absent renders
the edit template with a synthesized page of that title and empty body,
performs no store write, and prints nothing. -/
theorem edit_missing_renders_empty (r : Request) (t : String) (fs : FS)
    (hvalid : isValidTitle t = true)
    (hmiss : assocLookup fs.files (t ++ ".txt") = none) :
    editHandler r t fs = ([.render "edit" (some ⟨t, []⟩)], fs, []) := by
  simp [editHandler, loadPage, readFile, hmiss]

/-- C4 witness: editing missing page `Beta` on the empty filesystem
renders the edit form for `Beta` with empty body and writes nothing. -/
theorem edit_missing_renders_empty_witness :
    editHandler ⟨"/edit/Beta", []⟩ "Beta" ⟨[], []⟩ =
      ([.render "edit" (some ⟨"Beta", []⟩)], ⟨[], []⟩, []) :=
  edit_missing_renders_empty ⟨"/edit/Beta", []⟩ "Beta" ⟨[], []⟩
    (by decide) (by decide)

/-- C5: the save handler persists the submitted body under the title and
then either redirects 302 to `/view/<title>` (write succeeded) or
answers 500 with the underlying error message and no redirect (write
failed, filesystem unchanged, no retry). -/
theorem saveHandler_redirect_or_500 (r : Request) (t : String) (fs : FS) :
    saveHandler r t fs =
      match assocLookup fs.failing (t ++ ".txt") with
      | some msg =>
          ([.error500 msg], fs,
            ["save: " ++ r.path, "saving" ++ (t ++ ".txt")])
      | none =>
          ([.redirect ("/view/" ++ t)],
            { fs with files := (t ++ ".txt", r.formBody) :: fs.files },
            ["save: " ++ r.path, "saving" ++ (t ++ ".txt")]) := by
  cases h : assocLookup fs.failing (t ++ ".txt") <;>
    simp [saveHandler, Page.save, writeFile, h]

/-- C6 counterexample: `loadPage` prints nothing at all — at the concrete
title `TestPage` over a filesystem holding `TestPage.txt`, the load's
trace is empty, so no trace record with operation kind and resolved key
is emitted, contrary to the claim that every load emits one. -/
theorem load_emits_no_trace_cex :
    (loadPage "TestPage" ⟨[("TestPage.txt", [104])], []⟩).2 = [] := by decide

/-- C6 amended: every save emits exactly one trace record (`"saving"`
plus the resolved key), loads emit none, and the trace never affects the
operation's result: the save's error and resulting filesystem are
exactly those of the underlying write. -/
theorem save_traces_load_silent (p : Page) (fs : FS) :
    (p.save fs).2.2 = ["saving" ++ (p.title ++ ".txt")] ∧
    (loadPage p.title fs).2 = [] ∧
    (match writeFile fs (p.title ++ ".txt") p.body with
     | .error msg => (p.save fs).1 = some msg ∧ (p.save fs).2.1 = fs
     | .ok fs2 => (p.save fs).1 = none ∧ (p.save fs).2.1 = fs2) := by
  refine ⟨?_, by simp [loadPage], ?_⟩ <;>
    cases h : writeFile fs (p.title ++ ".txt") p.body <;>
      simp [Page.save, h]

/-- C7: the identifier-to-storage-key mapping `key = title + ".txt"` is
injective over valid titles: equal keys force equal titles, so distinct
titles never collide on a storage key. -/
theorem storage_key_injective (t1 t2 : String)
    (h1 : isValidTitle t1 = true) (h2 : isValidTitle t2 = true)
    (heq : t1 ++ ".txt" = t2 ++ ".txt") : t1 = t2 := by
  have hdata : t1.data ++ ".txt".data = t2.data ++ ".txt".data :=
    congrArg String.data heq
  exact congrArg String.mk (List.append_cancel_right hdata)

/-- C7 witness: instantiated at the valid title `Alpha` on both sides. -/
theorem storage_key_injective_witness :
    isValidTitle "Alpha" = true ∧ ("Alpha" : String) = "Alpha" :=
  ⟨by decide, storage_key_injective "Alpha" "Alpha" (by decide) (by decide) rfl⟩

/-- C8: when the backing file is absent, the view handler writes the 302
redirect and then still reaches the render call, executing the view
template with a nil page pointer on the same response. -/
theorem view_missing_renders_nil_after_redirect (r : Request) (t : String)
    (fs : FS) (hmiss : assocLookup fs.files (t ++ ".txt") = none) :
    (viewHandler r t fs).1 =
      [.redirect ("/edit/" ++ t), .render "view" none] := by
  simp [viewHandler, loadPage, readFile, hmiss]

/-- C8 witness: viewing missing page `Beta` on the empty filesystem
writes the redirect and then the nil-page render. -/
theorem view_missing_renders_nil_after_redirect_witness :
    (viewHandler ⟨"/view/Beta", []⟩ "Beta" ⟨[], []⟩).1 =
      [.redirect "/edit/Beta", .render "view" none] :=
  view_missing_renders_nil_after_redirect ⟨"/view/Beta", []⟩ "Beta" ⟨[], []⟩
    (by decide)

/-- C9: `loadPage` either succeeds, returning a page whose title is
exactly the requested title (with a nil error), or fails, returning a
nil page together with a non-nil error. -/
theorem loadPage_title_preserved_or_nil (t : String) (fs : FS) :
    (∃ b, assocLookup fs.files (t ++ ".txt") = some b ∧
      (loadPage t fs).1 = (some ⟨t, b⟩, none)) ∨
    (∃ e, (loadPage t fs).1 = (none, some e)) := by
  cases h : assocLookup fs.files (t ++ ".txt") with
  | some b =>
      refine .inl ⟨b, h ▸ rfl, ?_⟩
      simp [loadPage, readFile, h]
  | none =>
      refine .inr ⟨"open " ++ (t ++ ".txt") ++ ": no such file or directory", ?_⟩
      simp [loadPage, readFile, h]

/-- C10: the earlier web version validates nothing: each handler uses
the raw 6-character suffix of the path as the title, so a title
containing `/` or `.` reaches `loadPage` (view and edit read the file
`<suffix>.txt`) and `save` (the file `<suffix>.txt` is written)
unchecked. -/
theorem old_handlers_pass_raw_suffix (t : String) (fb b : List Nat) (fs : FS) :
    (assocLookup fs.files (t ++ ".txt") = some b →
      (oldViewHandler ⟨"/view/" ++ t, fb⟩ fs).1 =
        [.render "view" (some ⟨t, b⟩)]) ∧
    (assocLookup fs.files (t ++ ".txt") = some b →
      (oldEditHandler ⟨"/edit/" ++ t, fb⟩ fs).1 =
        [.render "edit" (some ⟨t, b⟩)]) ∧
    (assocLookup fs.failing (t ++ ".txt") = none →
      (oldSaveHandler ⟨"/save/" ++ t, fb⟩ fs).2.1.files =
        (t ++ ".txt", fb) :: fs.files) := by
  refine ⟨fun h => ?_, fun h => ?_, fun h => ?_⟩
  · simp [oldViewHandler, drop6_view_append, loadPage, readFile, h]
  · simp [oldEditHandler, drop6_edit_append, loadPage, readFile, h]
  · simp [oldSaveHandler, drop6_save_append, Page.save, writeFile, h]

/-- C10 witness: with the traversal title `../secret`, the old view
handler reads and renders the file `../secret.txt`, the old edit handler
renders its content in the form, and the old save handler writes it. -/
theorem old_handlers_pass_raw_suffix_witness :
    (oldViewHandler ⟨"/view/../secret", [1]⟩ ⟨[("../secret.txt", [7])], []⟩).1 =
      [.render "view" (some ⟨"../secret", [7]⟩)] ∧
    (oldEditHandler ⟨"/edit/../secret", [1]⟩ ⟨[("../secret.txt", [7])], []⟩).1 =
      [.render "edit" (some ⟨"../secret", [7]⟩)] ∧
    (oldSaveHandler ⟨"/save/../secret", [1]⟩ ⟨[("../secret.txt", [7])], []⟩).2.1.files =
      ("../secret.txt", [1]) :: [("../secret.txt", [7])] := by
  have h := old_handlers_pass_raw_suffix "../secret" [1] [7]
    ⟨[("../secret.txt", [7])], []⟩
  exact ⟨h.1 (by decide), h.2.1 (by decide), h.2.2 (by decide)⟩
